import Mathlib

/-!
Verification development for the greenhouse climate-monitor firmware
(devices/climate_monitor/climate_monitor.c, soil-moisture variant, together
with the shared MQTT client manager).

The C code is shallowly embedded: each C function that the properties talk
about becomes a Lean function over an explicit state type.  Hardware and
broker interactions (I2C transactions, ADC reads, NVS flash, MQTT sends)
are represented by outcome parameters describing what the environment
returned, and by an emitted list of actions describing what the code asked
the environment to do.  Machine integers stay well inside 32-bit range in
every property considered, so they are modelled by Int/Nat directly; the
C integer division in the moisture interpolation is modelled by Int.tdiv
(truncation toward zero, exactly C99 semantics).
-/

namespace Greenhouse

/-! ## Soil moisture sensor (LM393, analog)

Model of soil_moisture_read_percent (climate_monitor.c lines 530-565).
The ADC handle state and the result of adc_oneshot_read are environment
inputs; the calibration pair is passed explicitly (in C it is the pair of
globals soil_moisture_dry_value / soil_moisture_wet_value).
-/

/-- Default ADC value when completely dry (SOIL_MOISTURE_DRY_DEFAULT). -/
def SOIL_MOISTURE_DRY_DEFAULT : Int := 2800

/-- Default ADC value when fully wet (SOIL_MOISTURE_WET_DEFAULT). -/
def SOIL_MOISTURE_WET_DEFAULT : Int := 1200

/-- soil_moisture_read_percent: returns -1 when the ADC is not initialized
or the one-shot read fails; otherwise clamps against the calibration pair
and linearly interpolates with C truncating integer division. -/
def soil_moisture_read_percent (adcInitialized : Bool) (readOk : Bool)
    (adc_raw dry wet : Int) : Int :=
  if adcInitialized = false then -1
  else if readOk = false then -1
  else if dry ≤ adc_raw then 0
  else if adc_raw ≤ wet then 100
  else 100 - ((adc_raw - wet) * 100).tdiv (dry - wet)

/-! ## NVS-backed calibration store

Model of load_soil_calibration (lines 375-414), save_soil_calibration
(lines 419-460) and handle_config_message (lines 791-829).  The NVS
namespace soil_cal with its two i32 keys is a record of optional values;
fault injection for the write path is an explicit outcome value.  nvs_set
writes become durable only at a successful nvs_commit, so every failing
save leaves the persisted record unchanged.
-/

/-- Persisted NVS state for namespace soil_cal: whether the namespace has
ever been created (nvs_open READONLY fails otherwise) and the two keys. -/
structure NvsStore where
  hasNamespace : Bool
  dryKey : Option Int
  wetKey : Option Int
deriving DecidableEq, Repr

/-- Outcome of one save_soil_calibration attempt: which step, if any,
failed (nvs_open RW, nvs_set dry, nvs_set wet, nvs_commit). -/
inductive NvsFault where
  | ok
  | openFail
  | setDryFail
  | setWetFail
  | commitFail
deriving DecidableEq, Repr

/-- load_soil_calibration: if the namespace cannot be opened read-only both
defaults are used; otherwise each key falls back to its default
independently.  Returns the (dry, wet) pair installed in the globals. -/
def load_soil_calibration (store : NvsStore) : Int × Int :=
  if store.hasNamespace = false then
    (SOIL_MOISTURE_DRY_DEFAULT, SOIL_MOISTURE_WET_DEFAULT)
  else
    (store.dryKey.getD SOIL_MOISTURE_DRY_DEFAULT,
     store.wetKey.getD SOIL_MOISTURE_WET_DEFAULT)

/-- save_soil_calibration: open RW, write both keys, commit; every early
return with an error leaves the durable record unchanged because the
uncommitted writes are discarded.  Returns (succeeded?, new store). -/
def save_soil_calibration (fault : NvsFault) (dry wet : Int)
    (store : NvsStore) : Bool × NvsStore :=
  if fault = NvsFault.openFail then (false, store)
  else if fault = NvsFault.setDryFail then (false, store)
  else if fault = NvsFault.setWetFail then (false, store)
  else if fault = NvsFault.commitFail then (false, store)
  else (true, { hasNamespace := true, dryKey := some dry, wetKey := some wet })

/-- In-memory calibration globals soil_moisture_dry_value /
soil_moisture_wet_value. -/
structure CalMem where
  dry : Int
  wet : Int
deriving DecidableEq, Repr

/-- Result of cJSON_GetObjectItem followed by cJSON_IsNumber for one field
of the inbound config message. -/
inductive JsonField where
  | absent
  | nonNumber
  | num (v : Int)
deriving DecidableEq, Repr

/-- Whether cJSON_IsNumber accepted the field. -/
def JsonField.isNum : JsonField → Bool
  | .num _ => true
  | _ => false

/-- The two looked-up fields of a successfully parsed config message. -/
structure ConfigMsg where
  dryItem : JsonField
  wetItem : JsonField
deriving DecidableEq, Repr

/-- handle_config_message: a message that fails cJSON parsing (modelled as
none) is dropped; otherwise each numeric field is applied to the matching
global independently, and save_soil_calibration is called once iff at
least one field was applied.  Returns (new globals, new NVS store, number
of persistence-write attempts). -/
def handle_config_message (mem : CalMem) (store : NvsStore)
    (fault : NvsFault) (msg : Option ConfigMsg) : CalMem × NvsStore × Nat :=
  match msg with
  | none => (mem, store, 0)
  | some m =>
    let mem1 := match m.dryItem with
      | .num v => { mem with dry := v }
      | _ => mem
    let mem2 := match m.wetItem with
      | .num v => { mem1 with wet := v }
      | _ => mem1
    let updated := m.dryItem.isNum || m.wetItem.isNum
    if updated then
      let saved := save_soil_calibration fault mem2.dry mem2.wet store
      (mem2, saved.2, 1)
    else
      (mem2, store, 0)

/-! ## BME680 device descriptor lifecycle

Model of bme680_init (lines 570-626) and bme680_cleanup (lines 631-647).
The descriptor is the global bme680_t sensor together with the global
sensor_initialized flag.  bme680_cleanup deletes the I2C mutex when one
exists (a failing delete is only logged), clears sensor_initialized and
memsets the descriptor to zero, so its resulting state does not depend on
the state it started from and it reports no error (the C function returns
void and swallows the delete error).
-/

/-- The parts of the global sensor descriptor plus sensor_initialized that
the lifecycle functions touch: whether an I2C mutex is held and whether the
sensor is fully initialized. -/
structure Bme680Desc where
  hasMutex : Bool
  initialized : Bool
deriving DecidableEq, Repr

/-- How far bme680_init got before failing: descriptor creation failed
(both addresses), sensor soft-reset/probe failed (descriptor mutex is
deleted again on this path), or everything succeeded. -/
inductive InitOutcome where
  | descFail
  | sensorFail
  | ok
deriving DecidableEq, Repr

/-- bme680_init: memsets the descriptor, creates it, probes the sensor,
applies the fixed OSR/IIR/heater configuration.  On descFail the memset
state remains; on sensorFail the partially acquired mutex is deleted
before returning; only on ok is sensor_initialized set. -/
def bme680_init (out : InitOutcome) (_s : Bme680Desc) : Bme680Desc :=
  match out with
  | .descFail => { hasMutex := false, initialized := false }
  | .sensorFail => { hasMutex := false, initialized := false }
  | .ok => { hasMutex := true, initialized := true }

/-- bme680_cleanup: if a mutex exists it is deleted (an error from the
delete is logged and ignored), then sensor_initialized is cleared and the
descriptor is memset to zero. -/
def bme680_cleanup (s : Bme680Desc) : Bme680Desc :=
  let _mutexWasPresent := s.hasMutex
  { hasMutex := false, initialized := false }

/-! ## Acquisition worker start/stop

Model of climate_monitor_start (lines 870-877).  The globals are
sensor_running and sensor_task_handle; liveTasks counts how many
acquisition worker tasks exist (each successful xTaskCreate adds one).
-/

/-- The monitor-level globals guarding the worker task. -/
structure MonitorState where
  sensorRunning : Bool
  taskHandle : Bool
  liveTasks : Nat
deriving DecidableEq, Repr

/-- climate_monitor_start: creates the worker task and sets sensor_running
only when the worker is not already running and no task handle exists;
otherwise it changes nothing. -/
def climate_monitor_start (s : MonitorState) : MonitorState :=
  if s.sensorRunning = false ∧ s.taskHandle = false then
    { sensorRunning := true, taskHandle := true, liveTasks := s.liveTasks + 1 }
  else s

/-! ## Acquisition loop (bme680_read_and_publish, lines 652-776)

One iteration of the while (sensor_running) loop.  The environment decides
the outcome of bme680_init (when a reinit is attempted), of
bme680_force_measurement / bme680_get_results_float, of
mqtt_client_manager_is_connected and the mqtt_client handle, and supplies
the already-formatted %.2f renderings of the float readings.  The
iteration returns the new counter/flag state and the list of actions the
code performed (cleanup, delays, init attempt, soil read, MQTT publishes).
-/

/-- Compile-time device configuration (env_config.h): CONFIG_DEVICE_ID,
CONFIG_DEVICE_LOCATION_X, CONFIG_DEVICE_LOCATION_Y. -/
structure DeviceConfig where
  deviceId : String
  locationX : Int
  locationY : Int

/-- Loop-relevant mutable state across iterations: the global
sensor_initialized flag and the local consecutive_errors /
reinit_attempts counters. -/
structure LoopState where
  sensorInit : Bool
  consecutiveErrors : Nat
  reinitAttempts : Nat
deriving DecidableEq, Repr

/-- Environment data for one successful measurement cycle: broker
connectivity, the MQTT client handle being non-null, the %.2f renderings
of the four float readings, the soil percentage the auxiliary read
produced, and the msg_id the climate publish returned (negative means the
send failed). -/
structure ReadingEnv where
  connected : Bool
  clientSet : Bool
  temperature : String
  humidity : String
  pressure : String
  gasResistance : String
  soilPercent : Int
  climateSendResult : Int
deriving DecidableEq, Repr

/-- Outcome of the measurement part of one iteration: the trigger write
failed, the result fetch failed, or a reading was produced. -/
inductive MeasOutcome where
  | triggerFail
  | fetchFail
  | success (r : ReadingEnv)
deriving DecidableEq, Repr

/-- Externally visible actions one iteration performs, in order. -/
inductive Action where
  | cleanup
  | sensorInitCall
  | delayMs (n : Nat)
  | waitMeasurement
  | soilRead
  | mqttPublish (topic : String) (payload : String)
  | cadenceDelay
deriving DecidableEq, Repr

/-- MAX_CONSECUTIVE_ERRORS (line 662). -/
def MAX_CONSECUTIVE_ERRORS : Nat := 3

/-- MAX_REINIT_ATTEMPTS (line 664). -/
def MAX_REINIT_ATTEMPTS : Nat := 5

/-- The telemetry JSON payload snprintf builds at lines 745-750, with the
float fields spliced in as their %.2f renderings. -/
def telemetry_json (cfg : DeviceConfig) (r : ReadingEnv) : String :=
  "\x7b\"device_id\":\"" ++ cfg.deviceId ++ "\",\"temperature\":" ++ r.temperature ++
  ",\"humidity\":" ++ r.humidity ++ ",\"pressure\":" ++ r.pressure ++
  ",\"gas_resistance\":" ++ r.gasResistance ++
  ",\"soil_moisture\":" ++ toString r.soilPercent ++
  ",\"location_x\":" ++ toString cfg.locationX ++
  ",\"location_y\":" ++ toString cfg.locationY ++ "\x7d"

/-- The heartbeat JSON payload snprintf builds at lines 760-762. -/
def heartbeat_json (cfg : DeviceConfig) : String :=
  "\x7b\"device_id\":\"" ++ cfg.deviceId ++ "\",\"status\":\"alive\"\x7d"

/-- The measurement part of one iteration (lines 694-772), entered with
sensor_initialized true: trigger, wait, fetch, and on success the
soil read, the connectivity-gated double publish and the cadence sleep.
The error branches apply the consecutive-error ceiling: on the 3rd
consecutive error bme680_cleanup is called (forcing sensor_initialized
false) and the counter resets, otherwise a 500 ms backoff. -/
def measPhase (cfg : DeviceConfig) (st : LoopState) (m : MeasOutcome) :
    LoopState × List Action :=
  match m with
  | .triggerFail =>
    let ce := st.consecutiveErrors + 1
    if MAX_CONSECUTIVE_ERRORS ≤ ce then
      ({ sensorInit := false, consecutiveErrors := 0,
         reinitAttempts := st.reinitAttempts }, [Action.cleanup])
    else
      ({ st with consecutiveErrors := ce }, [Action.delayMs 500])
  | .fetchFail =>
    let ce := st.consecutiveErrors + 1
    if MAX_CONSECUTIVE_ERRORS ≤ ce then
      ({ sensorInit := false, consecutiveErrors := 0,
         reinitAttempts := st.reinitAttempts }, [Action.waitMeasurement, Action.cleanup])
    else
      ({ st with consecutiveErrors := ce }, [Action.waitMeasurement, Action.delayMs 500])
  | .success r =>
    let pubs :=
      if r.connected && r.clientSet then
        [Action.mqttPublish "sensor/climate" (telemetry_json cfg r),
         Action.mqttPublish "sensor/heartbeat" (heartbeat_json cfg)]
      else []
    ({ st with consecutiveErrors := 0, reinitAttempts := 0 },
     [Action.waitMeasurement, Action.soilRead] ++ pubs ++ [Action.cadenceDelay])

/-- One full iteration of the while (sensor_running) body.  When
sensor_initialized is false the iteration first cleans up, waits the 2 s
settle delay and retries bme680_init; a failed init applies the
reinit-attempts ceiling (5th consecutive failure: 10 s extended cooldown
and counter reset, otherwise 3 s retry delay) and ends the iteration; a
successful init resets both counters and falls through to the measurement
phase of the same iteration. -/
def loopIter (cfg : DeviceConfig) (st : LoopState) (initResult : Bool)
    (m : MeasOutcome) : LoopState × List Action :=
  if st.sensorInit = false then
    let pre := [Action.cleanup, Action.delayMs 2000, Action.sensorInitCall]
    if initResult = false then
      let ra := st.reinitAttempts + 1
      if MAX_REINIT_ATTEMPTS ≤ ra then
        ({ st with reinitAttempts := 0 }, pre ++ [Action.delayMs 10000])
      else
        ({ st with reinitAttempts := ra }, pre ++ [Action.delayMs 3000])
    else
      let st1 : LoopState :=
        { sensorInit := true, consecutiveErrors := 0, reinitAttempts := 0 }
      let res := measPhase cfg st1 m
      (res.1, pre ++ res.2)
  else
    measPhase cfg st m

/-- The (topic, payload) pairs of the esp_mqtt_client_publish calls an
iteration issued, in order. -/
def publishedMessages (acts : List Action) : List (String × String) :=
  acts.filterMap fun a =>
    match a with
    | .mqttPublish t p => some (t, p)
    | _ => none

/-- A run in which every trigger/fetch attempt returns a bus error while
every reinitialization attempt succeeds: state after n iterations,
starting from a freshly initialized sensor with both counters zero.
f picks, per iteration, whether the trigger or the fetch fails. -/
def errRunF (cfg : DeviceConfig) (f : Nat → MeasOutcome) : Nat → LoopState
  | 0 => { sensorInit := true, consecutiveErrors := 0, reinitAttempts := 0 }
  | n + 1 => (loopIter cfg (errRunF cfg f n) true (f n)).1

/-- A run in which every reinitialization attempt fails, starting from an
uninitialized sensor with consecutive-error counter ce0: state after n
iterations. -/
def reinitRun (cfg : DeviceConfig) (ce0 : Nat) : Nat → LoopState
  | 0 => { sensorInit := false, consecutiveErrors := ce0, reinitAttempts := 0 }
  | n + 1 => (loopIter cfg (reinitRun cfg ce0 n) false MeasOutcome.triggerFail).1

/-- The actions of iteration n+1 of the failing-reinit run. -/
def reinitActs (cfg : DeviceConfig) (ce0 n : Nat) : List Action :=
  (loopIter cfg (reinitRun cfg ce0 n) false MeasOutcome.triggerFail).2

/-! ## Helper lemmas about the two fault runs -/

/-- Invariant of the all-errors run: the error counter cycles modulo 3,
the reinit counter stays 0 (every reinit in this run succeeds and resets
it), and the sensor is left uninitialized exactly at the multiples of 3
(after at least one error). -/
lemma errRunF_invariant (cfg : DeviceConfig) (f : Nat → MeasOutcome)
    (hf : ∀ i, f i = MeasOutcome.triggerFail ∨ f i = MeasOutcome.fetchFail) :
    ∀ n, (errRunF cfg f n).consecutiveErrors = n % 3
      ∧ (errRunF cfg f n).reinitAttempts = 0
      ∧ ((errRunF cfg f n).sensorInit = false ↔ (n % 3 = 0 ∧ 0 < n)) := by
  intro n
  induction n with
  | zero => simp [errRunF]
  | succ n ih =>
    obtain ⟨hce, hra, hsi⟩ := ih
    have hstep : errRunF cfg f (n + 1) = (loopIter cfg (errRunF cfg f n) true (f n)).1 := rfl
    rcases hf n with hfn | hfn <;>
      cases hb : (errRunF cfg f n).sensorInit <;>
      rw [hstep, hfn]
    · -- trigger fails, sensor uninitialized: successful reinit then first error
      have hn3 : n % 3 = 0 ∧ 0 < n := hsi.mp hb
      simp [loopIter, measPhase, hb, MAX_CONSECUTIVE_ERRORS]
      omega
    · -- trigger fails, sensor initialized: one more error of the streak
      have hn3 : ¬ (n % 3 = 0 ∧ 0 < n) := by
        intro hcon
        exact absurd (hsi.mpr hcon) (by simp [hb])
      by_cases hceil : 3 ≤ n % 3 + 1
      · simp [loopIter, measPhase, hb, MAX_CONSECUTIVE_ERRORS, hce, hceil, hra]
        omega
      · simp [loopIter, measPhase, hb, MAX_CONSECUTIVE_ERRORS, hce, hceil, hra]
        omega
    · -- fetch fails, sensor uninitialized
      have hn3 : n % 3 = 0 ∧ 0 < n := hsi.mp hb
      simp [loopIter, measPhase, hb, MAX_CONSECUTIVE_ERRORS]
      omega
    · -- fetch fails, sensor initialized
      have hn3 : ¬ (n % 3 = 0 ∧ 0 < n) := by
        intro hcon
        exact absurd (hsi.mpr hcon) (by simp [hb])
      by_cases hceil : 3 ≤ n % 3 + 1
      · simp [loopIter, measPhase, hb, MAX_CONSECUTIVE_ERRORS, hce, hceil, hra]
        omega
      · simp [loopIter, measPhase, hb, MAX_CONSECUTIVE_ERRORS, hce, hceil, hra]
        omega

/-- Invariant of the all-reinit-failures run: the sensor stays
uninitialized, the consecutive-error counter is untouched, and the reinit
counter cycles modulo 5. -/
lemma reinitRun_invariant (cfg : DeviceConfig) (ce0 : Nat) :
    ∀ n, (reinitRun cfg ce0 n).sensorInit = false
      ∧ (reinitRun cfg ce0 n).consecutiveErrors = ce0
      ∧ (reinitRun cfg ce0 n).reinitAttempts = n % 5 := by
  intro n
  induction n with
  | zero => simp [reinitRun]
  | succ n ih =>
    obtain ⟨hsi, hce, hra⟩ := ih
    have hstep : reinitRun cfg ce0 (n + 1)
        = (loopIter cfg (reinitRun cfg ce0 n) false MeasOutcome.triggerFail).1 := rfl
    rw [hstep]
    by_cases hceil : 5 ≤ n % 5 + 1
    · simp [loopIter, hsi, MAX_REINIT_ATTEMPTS, hce, hra, hceil]
      omega
    · simp [loopIter, hsi, MAX_REINIT_ATTEMPTS, hce, hra, hceil]
      omega

/-- The 10-second extended cooldown is entered in iteration n+1 of the
all-reinit-failures run exactly when that iteration is the 5th, 10th, ...
consecutive failed attempt. -/
lemma reinitActs_cooldown (cfg : DeviceConfig) (ce0 n : Nat) :
    Action.delayMs 10000 ∈ reinitActs cfg ce0 n ↔ (n + 1) % 5 = 0 := by
  obtain ⟨hsi, hce, hra⟩ := reinitRun_invariant cfg ce0 n
  unfold reinitActs
  by_cases hceil : 5 ≤ n % 5 + 1
  · simp [loopIter, hsi, MAX_REINIT_ATTEMPTS, hra, hceil]
    omega
  · simp [loopIter, hsi, MAX_REINIT_ATTEMPTS, hra, hceil]
    omega

/-! ## Claim theorems -/

/-- Claim C1: in the acquisition loop, a run of consecutive trigger/fetch
bus errors forces the sensor back to Uninitialized (cleanup, error counter
reset) exactly after every 3rd consecutive error, and a run of consecutive
failed reinitialization attempts enters the 10-second extended cooldown
and resets the reinit counter exactly after every 5th failure; the error
counter and the reinit counter are maintained independently (the reinit
run leaves the error counter untouched, the error run leaves the reinit
counter at zero). -/
theorem loop_error_and_reinit_ceilings (cfg : DeviceConfig)
    (f : Nat → MeasOutcome)
    (hf : ∀ i, f i = MeasOutcome.triggerFail ∨ f i = MeasOutcome.fetchFail)
    (n ce0 m : Nat) :
    ((errRunF cfg f (n + 1)).sensorInit = false ↔ (n + 1) % 3 = 0)
    ∧ (errRunF cfg f (n + 1)).consecutiveErrors = (n + 1) % 3
    ∧ (errRunF cfg f (n + 1)).reinitAttempts = 0
    ∧ (reinitRun cfg ce0 (m + 1)).reinitAttempts = (m + 1) % 5
    ∧ (Action.delayMs 10000 ∈ reinitActs cfg ce0 m ↔ (m + 1) % 5 = 0)
    ∧ (reinitRun cfg ce0 (m + 1)).consecutiveErrors = ce0 := by
  obtain ⟨hce, hra, hsi⟩ := errRunF_invariant cfg f hf (n + 1)
  obtain ⟨hsi2, hce2, hra2⟩ := reinitRun_invariant cfg ce0 (m + 1)
  refine ⟨?_, hce, hra, hra2, reinitActs_cooldown cfg ce0 m, hce2⟩
  rw [hsi]
  omega

/-- Witness for C1 at a concrete run: three consecutive trigger failures
force the sensor back to Uninitialized, and the 5th consecutive failed
reinit attempt (with the error counter parked at 7) enters the 10 s
cooldown and resets the reinit counter. -/
theorem loop_error_and_reinit_ceilings_witness :
    ((errRunF ⟨"greenhouse-1", 0, 0⟩ (fun _ => MeasOutcome.triggerFail) 3).sensorInit = false
        ↔ 3 % 3 = 0)
    ∧ (errRunF ⟨"greenhouse-1", 0, 0⟩ (fun _ => MeasOutcome.triggerFail) 3).consecutiveErrors
        = 3 % 3
    ∧ (errRunF ⟨"greenhouse-1", 0, 0⟩ (fun _ => MeasOutcome.triggerFail) 3).reinitAttempts = 0
    ∧ (reinitRun ⟨"greenhouse-1", 0, 0⟩ 7 5).reinitAttempts = 5 % 5
    ∧ (Action.delayMs 10000 ∈ reinitActs ⟨"greenhouse-1", 0, 0⟩ 7 4 ↔ 5 % 5 = 0)
    ∧ (reinitRun ⟨"greenhouse-1", 0, 0⟩ 7 5).consecutiveErrors = 7 :=
  loop_error_and_reinit_ceilings ⟨"greenhouse-1", 0, 0⟩
    (fun _ => MeasOutcome.triggerFail) (fun _ => Or.inl rfl) 2 7 4

/-- Claim C2: when the broker-connected flag is false or the MQTT client
handle is null, a successful reading is dropped: the iteration issues no
esp_mqtt_client_publish call at all (and the model keeps no buffer, so
nothing is queued for retry). -/
theorem publish_disconnected_noop (cfg : DeviceConfig) (st : LoopState)
    (initResult : Bool) (r : ReadingEnv)
    (h : r.connected = false ∨ r.clientSet = false) :
    publishedMessages (loopIter cfg st initResult (MeasOutcome.success r)).2 = [] := by
  have hpc : (r.connected && r.clientSet) = false := by
    rcases h with h | h <;> simp [h]
  cases hs : st.sensorInit
  · cases hi : initResult
    · by_cases hceil : MAX_REINIT_ATTEMPTS ≤ st.reinitAttempts + 1 <;>
        simp [loopIter, measPhase, hs, hpc, publishedMessages, hceil]
    · simp [loopIter, measPhase, hs, hpc, publishedMessages]
  · simp [loopIter, measPhase, hs, hpc, publishedMessages]

/-- Witness for C2: a disconnected session drops a concrete reading with
no publish action. -/
theorem publish_disconnected_noop_witness :
    publishedMessages
      (loopIter ⟨"greenhouse-1", 3, 4⟩ ⟨true, 0, 0⟩ true
        (MeasOutcome.success
          ⟨false, true, "21.50", "40.00", "1013.25", "120000.00", 55, 0⟩)).2 = [] :=
  publish_disconnected_noop ⟨"greenhouse-1", 3, 4⟩ ⟨true, 0, 0⟩ true
    ⟨false, true, "21.50", "40.00", "1013.25", "120000.00", 55, 0⟩ (Or.inl rfl)

/-- Claim C3: when the session is connected and the client handle set, a
successful reading that reaches the measurement phase results in exactly
two esp_mqtt_client_publish calls, in order: topic sensor/climate with the
telemetry JSON record and topic sensor/heartbeat with the liveness record;
the result holds for every value of the climate send result (a negative
msg_id is only logged, never retried within the cycle). -/
theorem publish_connected_two_messages (cfg : DeviceConfig) (st : LoopState)
    (initResult : Bool) (r : ReadingEnv)
    (hreach : st.sensorInit = true ∨ initResult = true)
    (hc : r.connected = true) (hk : r.clientSet = true) :
    publishedMessages (loopIter cfg st initResult (MeasOutcome.success r)).2 =
      [("sensor/climate", telemetry_json cfg r),
       ("sensor/heartbeat", heartbeat_json cfg)] := by
  cases hs : st.sensorInit
  · have hi : initResult = true := by
      rcases hreach with h | h
      · rw [hs] at h
        cases h
      · exact h
    simp [loopIter, measPhase, hs, hi, hc, hk, publishedMessages]
  · simp [loopIter, measPhase, hs, hc, hk, publishedMessages]

/-- Witness for C3: a connected session publishes a concrete reading on
the two literal topics, even with a negative climate send result. -/
theorem publish_connected_two_messages_witness :
    publishedMessages
      (loopIter ⟨"greenhouse-1", 3, 4⟩ ⟨true, 0, 0⟩ true
        (MeasOutcome.success
          ⟨true, true, "21.50", "40.00", "1013.25", "120000.00", 55, -1⟩)).2 =
      [("sensor/climate",
        telemetry_json ⟨"greenhouse-1", 3, 4⟩
          ⟨true, true, "21.50", "40.00", "1013.25", "120000.00", 55, -1⟩),
       ("sensor/heartbeat", heartbeat_json ⟨"greenhouse-1", 3, 4⟩)] :=
  publish_connected_two_messages ⟨"greenhouse-1", 3, 4⟩ ⟨true, 0, 0⟩ true
    ⟨true, true, "21.50", "40.00", "1013.25", "120000.00", 55, -1⟩
    (Or.inl rfl) rfl rfl

/-- Claim C4: with an initialized ADC and a successful read, a raw value
at or above the dry extreme maps to 0 percent, a raw value at or below the
wet extreme maps to 100 percent, and a raw value exactly halfway between
the two extremes (raw * 2 = dry + wet) maps to 50 percent within plus or
minus 1 under the truncating integer interpolation. -/
theorem soil_percent_boundaries (raw dry wet : Int) (hlt : wet < dry) :
    (dry ≤ raw → soil_moisture_read_percent true true raw dry wet = 0)
    ∧ (raw ≤ wet → soil_moisture_read_percent true true raw dry wet = 100)
    ∧ (raw * 2 = dry + wet →
        |soil_moisture_read_percent true true raw dry wet - 50| ≤ 1) := by
  refine ⟨?_, ?_, ?_⟩
  · intro h
    simp [soil_moisture_read_percent, h]
  · intro h
    have hnd : ¬ dry ≤ raw := by omega
    simp [soil_moisture_read_percent, hnd, h]
  · intro h2
    have hnd : ¬ dry ≤ raw := by omega
    have hnw : ¬ raw ≤ wet := by omega
    have hd : dry - wet = 2 * (raw - wet) := by omega
    have hnum : (raw - wet) * 100 = 50 * (2 * (raw - wet)) := by ring
    have hne : (2 * (raw - wet)) ≠ 0 := by omega
    simp only [soil_moisture_read_percent, if_neg hnd, if_neg hnw]
    rw [hd, hnum, Int.mul_tdiv_cancel _ hne]
    norm_num

/-- Witness for C4 at the default calibration (dry 2800, wet 1200) and the
exact halfway raw value 2000. -/
theorem soil_percent_boundaries_witness :
    (2800 ≤ (2000 : Int) → soil_moisture_read_percent true true 2000 2800 1200 = 0)
    ∧ ((2000 : Int) ≤ 1200 → soil_moisture_read_percent true true 2000 2800 1200 = 100)
    ∧ ((2000 : Int) * 2 = 2800 + 1200 →
        |soil_moisture_read_percent true true 2000 2800 1200 - 50| ≤ 1) :=
  soil_percent_boundaries 2000 2800 1200 (by decide)

/-- Claim C9: under the precondition wet < dry the moisture read is total:
it returns the sentinel -1 (ADC uninitialized or failed read) or an
integer between 0 and 100; and the interpolation branch is reached only
when wet < raw < dry, so its divisor dry - wet is strictly positive there
and the division cannot divide by zero. -/
theorem soil_percent_total (ini ok : Bool) (raw dry wet : Int)
    (h : wet < dry) :
    (soil_moisture_read_percent ini ok raw dry wet = -1
      ∨ (0 ≤ soil_moisture_read_percent ini ok raw dry wet
          ∧ soil_moisture_read_percent ini ok raw dry wet ≤ 100))
    ∧ (¬ dry ≤ raw → ¬ raw ≤ wet → 0 < dry - wet) := by
  constructor
  · cases ini
    · left
      simp [soil_moisture_read_percent]
    · cases ok
      · left
        simp [soil_moisture_read_percent]
      · by_cases h1 : dry ≤ raw
        · right
          simp [soil_moisture_read_percent, h1]
        · by_cases h2 : raw ≤ wet
          · right
            simp [soil_moisture_read_percent, h1, h2]
          · right
            have hposn : (0 : Int) ≤ (raw - wet) * 100 := by
              have : (0 : Int) ≤ raw - wet := by omega
              positivity
            have hposd : (0 : Int) < dry - wet := by omega
            have ht0 : 0 ≤ ((raw - wet) * 100).tdiv (dry - wet) :=
              Int.tdiv_nonneg hposn (le_of_lt hposd)
            have hle : (raw - wet) * 100 ≤ (dry - wet) * 100 := by
              have hrw : raw - wet ≤ dry - wet := by omega
              exact mul_le_mul_of_nonneg_right hrw (by norm_num)
            have ht100 : ((raw - wet) * 100).tdiv (dry - wet) ≤ 100 := by
              have he : ((raw - wet) * 100).tdiv (dry - wet)
                  = ((raw - wet) * 100) / (dry - wet) :=
                Int.tdiv_eq_ediv hposn (le_of_lt hposd)
              rw [he]
              calc ((raw - wet) * 100) / (dry - wet)
                  ≤ ((dry - wet) * 100) / (dry - wet) := Int.ediv_le_ediv hposd hle
                _ = 100 := Int.mul_ediv_cancel_left _ (by omega)
            simp [soil_moisture_read_percent, h1, h2]
            omega
  · intro h1 h2
    omega

/-- Witness for C9 at a raw value strictly inside the default calibration
range. -/
theorem soil_percent_total_witness :
    (soil_moisture_read_percent true true 1500 2800 1200 = -1
      ∨ (0 ≤ soil_moisture_read_percent true true 1500 2800 1200
          ∧ soil_moisture_read_percent true true 1500 2800 1200 ≤ 100))
    ∧ (¬ (2800 : Int) ≤ 1500 → ¬ (1500 : Int) ≤ 1200 → 0 < (2800 : Int) - 1200) :=
  soil_percent_total true true 1500 2800 1200 (by decide)

/-- Claim C5: applying the calibration update dry=2900, wet=1100 and then
loading after a simulated restart yields the pair (2900, 1100) when the
persistence write and commit succeed; when persistence fails, the
in-memory pair immediately after the update is still (2900, 1100), but a
load after restart yields exactly what a load of the pre-update store
yields. -/
theorem calibration_roundtrip (mem : CalMem) (store : NvsStore)
    (fault : NvsFault) (hfail : fault ≠ NvsFault.ok) :
    load_soil_calibration
        (handle_config_message mem store NvsFault.ok
          (some ⟨JsonField.num 2900, JsonField.num 1100⟩)).2.1 = (2900, 1100)
    ∧ (handle_config_message mem store fault
          (some ⟨JsonField.num 2900, JsonField.num 1100⟩)).1 = ⟨2900, 1100⟩
    ∧ load_soil_calibration
        (handle_config_message mem store fault
          (some ⟨JsonField.num 2900, JsonField.num 1100⟩)).2.1
      = load_soil_calibration store := by
  obtain ⟨md, mw⟩ := mem
  refine ⟨?_, ?_, ?_⟩
  · simp [handle_config_message, save_soil_calibration, load_soil_calibration,
      JsonField.isNum]
  · cases fault <;>
      simp_all [handle_config_message, save_soil_calibration, JsonField.isNum]
  · cases fault <;>
      simp_all [handle_config_message, save_soil_calibration, JsonField.isNum]

/-- Witness for C5 with a previously persisted pair (2700, 1300) and a
failing NVS commit. -/
theorem calibration_roundtrip_witness :
    load_soil_calibration
        (handle_config_message ⟨2800, 1200⟩ ⟨true, some 2700, some 1300⟩ NvsFault.ok
          (some ⟨JsonField.num 2900, JsonField.num 1100⟩)).2.1 = (2900, 1100)
    ∧ (handle_config_message ⟨2800, 1200⟩ ⟨true, some 2700, some 1300⟩ NvsFault.commitFail
          (some ⟨JsonField.num 2900, JsonField.num 1100⟩)).1 = ⟨2900, 1100⟩
    ∧ load_soil_calibration
        (handle_config_message ⟨2800, 1200⟩ ⟨true, some 2700, some 1300⟩ NvsFault.commitFail
          (some ⟨JsonField.num 2900, JsonField.num 1100⟩)).2.1
      = load_soil_calibration ⟨true, some 2700, some 1300⟩ :=
  calibration_roundtrip ⟨2800, 1200⟩ ⟨true, some 2700, some 1300⟩
    NvsFault.commitFail (by decide)

/-- Claim C6: a config message containing only the numeric field
dry_value = 2750 sets the dry extreme to 2750, leaves the wet extreme
unchanged, and triggers exactly one persistence write. -/
theorem config_dry_only_updates_dry (mem : CalMem) (store : NvsStore)
    (fault : NvsFault) :
    (handle_config_message mem store fault
        (some ⟨JsonField.num 2750, JsonField.absent⟩)).1.dry = 2750
    ∧ (handle_config_message mem store fault
        (some ⟨JsonField.num 2750, JsonField.absent⟩)).1.wet = mem.wet
    ∧ (handle_config_message mem store fault
        (some ⟨JsonField.num 2750, JsonField.absent⟩)).2.2 = 1 := by
  obtain ⟨md, mw⟩ := mem
  exact ⟨rfl, rfl, rfl⟩

/-- Counterexample to C7 as stated: the message containing only the
numeric field dry_value = 2750 (wet_value absent) does change the
in-memory calibration, although not both fields are present. -/
theorem config_requires_both_fields_counterexample :
    (handle_config_message ⟨2800, 1200⟩ ⟨false, none, none⟩ NvsFault.ok
        (some ⟨JsonField.num 2750, JsonField.absent⟩)).1 ≠ ⟨2800, 1200⟩ := by
  decide

/-- Claim C7 (amended): handle_config_message validates and applies each
field independently: a present numeric field is applied to its extreme, an
absent or non-numeric field leaves its extreme unchanged, an unparseable
message changes nothing, a message with at least one numeric field
triggers exactly one persistence write, and a parsed message with no
numeric field changes nothing and triggers no write. -/
theorem config_update_per_field (mem : CalMem) (store : NvsStore)
    (fault : NvsFault) (m : ConfigMsg) :
    handle_config_message mem store fault none = (mem, store, 0)
    ∧ (handle_config_message mem store fault (some m)).1.dry
        = (match m.dryItem with | .num v => v | _ => mem.dry)
    ∧ (handle_config_message mem store fault (some m)).1.wet
        = (match m.wetItem with | .num v => v | _ => mem.wet)
    ∧ (handle_config_message mem store fault (some m)).2.2
        = (if m.dryItem.isNum || m.wetItem.isNum then 1 else 0)
    ∧ (m.dryItem.isNum = false → m.wetItem.isNum = false →
        handle_config_message mem store fault (some m) = (mem, store, 0)) := by
  obtain ⟨md, mw⟩ := mem
  obtain ⟨di, wi⟩ := m
  cases di <;> cases wi <;>
    simp [handle_config_message, JsonField.isNum]

/-- Witness for C7 (amended) on a parsed message with a non-numeric
dry_value and an absent wet_value: nothing changes and nothing is
persisted. -/
theorem config_update_per_field_witness :
    handle_config_message ⟨2800, 1200⟩ ⟨false, none, none⟩ NvsFault.ok none
      = (⟨2800, 1200⟩, ⟨false, none, none⟩, 0)
    ∧ (handle_config_message ⟨2800, 1200⟩ ⟨false, none, none⟩ NvsFault.ok
        (some ⟨JsonField.nonNumber, JsonField.absent⟩)).1.dry
        = (match JsonField.nonNumber with | .num v => v | _ => (2800 : Int))
    ∧ (handle_config_message ⟨2800, 1200⟩ ⟨false, none, none⟩ NvsFault.ok
        (some ⟨JsonField.nonNumber, JsonField.absent⟩)).1.wet
        = (match JsonField.absent with | .num v => v | _ => (1200 : Int))
    ∧ (handle_config_message ⟨2800, 1200⟩ ⟨false, none, none⟩ NvsFault.ok
        (some ⟨JsonField.nonNumber, JsonField.absent⟩)).2.2
        = (if (JsonField.nonNumber).isNum || (JsonField.absent).isNum then 1 else 0)
    ∧ ((JsonField.nonNumber).isNum = false → (JsonField.absent).isNum = false →
        handle_config_message ⟨2800, 1200⟩ ⟨false, none, none⟩ NvsFault.ok
          (some ⟨JsonField.nonNumber, JsonField.absent⟩)
          = (⟨2800, 1200⟩, ⟨false, none, none⟩, 0)) :=
  config_update_per_field ⟨2800, 1200⟩ ⟨false, none, none⟩ NvsFault.ok
    ⟨JsonField.nonNumber, JsonField.absent⟩

/-- Claim C8: bme680_cleanup is idempotent, leaves the device
Uninitialized with no bus mutex held, and is safe on any starting state,
including the state left by a partial or failed bme680_init. -/
theorem cleanup_idempotent (s : Bme680Desc) (out : InitOutcome) :
    bme680_cleanup (bme680_cleanup s) = bme680_cleanup s
    ∧ (bme680_cleanup s).initialized = false
    ∧ (bme680_cleanup s).hasMutex = false
    ∧ bme680_cleanup (bme680_init out s) = bme680_cleanup s :=
  ⟨rfl, rfl, rfl, rfl⟩

/-- Claim C10: climate_monitor_start creates the worker task only when the
running flag is clear and no task handle exists.  It preserves the
invariant that at most one worker task is alive (and none when no handle
exists), a redundant start changes no state, and starting twice equals
starting once. -/
theorem start_idempotent (s : MonitorState)
    (hinv : (s.taskHandle = false → s.liveTasks = 0) ∧ s.liveTasks ≤ 1) :
    ((climate_monitor_start s).liveTasks ≤ 1
      ∧ ((climate_monitor_start s).taskHandle = false →
          (climate_monitor_start s).liveTasks = 0))
    ∧ (s.sensorRunning = true ∨ s.taskHandle = true → climate_monitor_start s = s)
    ∧ climate_monitor_start (climate_monitor_start s) = climate_monitor_start s := by
  obtain ⟨h0, h1⟩ := hinv
  by_cases hc : s.sensorRunning = false ∧ s.taskHandle = false
  · obtain ⟨hr, hh⟩ := hc
    have hl : s.liveTasks = 0 := h0 hh
    refine ⟨⟨?_, ?_⟩, ?_, ?_⟩
    · simp [climate_monitor_start, hr, hh, hl]
    · simp [climate_monitor_start, hr, hh]
    · intro hcon
      rcases hcon with hcon | hcon
      · rw [hr] at hcon
        cases hcon
      · rw [hh] at hcon
        cases hcon
    · simp [climate_monitor_start, hr, hh]
  · have hid : climate_monitor_start s = s := by
      simp [climate_monitor_start, hc]
    refine ⟨⟨?_, ?_⟩, ?_, ?_⟩
    · rw [hid]
      exact h1
    · rw [hid]
      exact h0
    · intro _
      exact hid
    · rw [hid, hid]

/-- Witness for C10 from the boot state: no worker running, no handle, no
live task. -/
theorem start_idempotent_witness :
    ((climate_monitor_start ⟨false, false, 0⟩).liveTasks ≤ 1
      ∧ ((climate_monitor_start ⟨false, false, 0⟩).taskHandle = false →
          (climate_monitor_start ⟨false, false, 0⟩).liveTasks = 0))
    ∧ ((false = true ∨ false = true) →
        climate_monitor_start ⟨false, false, 0⟩ = ⟨false, false, 0⟩)
    ∧ climate_monitor_start (climate_monitor_start ⟨false, false, 0⟩)
        = climate_monitor_start ⟨false, false, 0⟩ :=
  start_idempotent ⟨false, false, 0⟩ (by decide)

end Greenhouse
